import Mathlib

/-!
Shallow embedding of `src/livestreamer_curses/main.py` (livestreamer-curses).

Conventions used throughout:
* Python strings are modelled as `List Char`, Python ints as `Int`.
* Python dicts keyed by stream id (`ProcessList.q`) are association lists.
* In-place mutation of a stream dict that is shared between `self.streams`
  and `self.filtered_streams` is modelled by replacing the first occurrence
  of the (value-equal) record in each list.
* A raised Python exception is modelled by an `Option PyExc` (or `Except`)
  component of the result; the state component is the state at the moment
  the exception escapes the function.
-/

/-- The Python exception classes that the embedded code can raise:
`QueueFull` and `QueueDuplicate` from `main.py`, plus the built-in
`OSError`, `TypeError`, `ValueError` and `IndexError`. -/
inductive PyExc where
  | queueFull
  | queueDuplicate
  | osError
  | typeError
  | valueError
  | indexError
  deriving DecidableEq

/-- One stream dict: keys `id`, `name`, `url`, `res`, `seen`, `last_seen`
exactly as built in `StreamList.add_stream` (main.py lines 687-694). -/
structure StreamRec where
  id : Int
  name : List Char
  url : List Char
  res : List Char
  seen : Int
  last_seen : Int
  deriving DecidableEq

/-- `needle.isPrefix of hay` on characters, as used to model Python's
substring operator (structural helper for `py_contains`). -/
def py_starts : List Char → List Char → Bool
  | [], _ => true
  | _ :: _, [] => false
  | a :: as, b :: bs => a == b && py_starts as bs

/-- Python's `needle in hay` on two strings: `needle` occurs as a
contiguous substring of `hay` (the empty string is in every string). -/
def py_contains : List Char → List Char → Bool
  | n, [] => py_starts n []
  | n, h :: t => py_starts n (h :: t) || py_contains n t

/-- Python's `str.lower()` (per-character lowering). -/
def lowerStr (s : List Char) : List Char := s.map Char.toLower

/-- Python's `flt in s` where `flt` is `self.filter : str | None`.
With `None` as the left operand, Python 2 raises
`TypeError: 'in <string>' requires string as left operand`. -/
def py_in (flt : Option (List Char)) (s : List Char) : Except PyExc Bool :=
  match flt with
  | none => Except.error PyExc.typeError
  | some f => Except.ok (py_contains f s)

/-- Remove the first occurrence of `x` (helper for `py_remove`). -/
def removeFirst : List StreamRec → StreamRec → List StreamRec
  | [], _ => []
  | y :: ys, x => if y = x then ys else y :: removeFirst ys x

/-- Python's `list.remove(x)`: removes the first occurrence of `x`, or
raises `ValueError` when `x` is not present. -/
def py_remove (l : List StreamRec) (x : StreamRec) : Except PyExc (List StreamRec) :=
  if x ∈ l then Except.ok (removeFirst l x) else Except.error PyExc.valueError

/-- Replace the first occurrence of `s` by `s2`: models an in-place
mutation of the dict object `s` as seen through a list containing it. -/
def replaceFirst : List StreamRec → StreamRec → StreamRec → List StreamRec
  | [], _, _ => []
  | y :: ys, s, s2 => if y = s then s2 :: ys else y :: replaceFirst ys s s2

/-- `DEFAULT_RESOLUTION_HARD = '480p'` (main.py line 52). -/
def DEFAULT_RESOLUTION_HARD : List Char := ['4', '8', '0', 'p']

/-- The shapes `self.default_res` can take (a string, a url-substring
to resolution dict, a callable, or anything else), per the type dispatch
in `add_stream` (main.py lines 674-685). A Python dict is modelled as an
association list in iteration order; a callable as a Lean function that
may return `none` (Python `None`). -/
inductive ResPolicy where
  | str (s : List Char)
  | dict (entries : List (List Char × List Char))
  | func (f : List Char → Option (List Char))
  | other

/-- The resolution actually assigned by `add_stream` for policy `p` and
URL `url` (main.py lines 674-685): a string is used as is; for a dict the
first entry whose key is a substring of `url` wins, else the hard default;
a callable's falsy result (None or '') falls back to the hard default. -/
def resolve_res (p : ResPolicy) (url : List Char) : List Char :=
  match p with
  | ResPolicy.str s => s
  | ResPolicy.dict entries =>
    match entries.find? (fun kv => py_contains kv.1 url) with
    | some kv => kv.2
    | none => DEFAULT_RESOLUTION_HARD
  | ResPolicy.func f =>
    match f url with
    | none => DEFAULT_RESOLUTION_HARD
    | some s => if s.isEmpty then DEFAULT_RESOLUTION_HARD else s
  | ResPolicy.other => DEFAULT_RESOLUTION_HARD

/-- The registry-relevant state of a `StreamList` object:
`streams`, `filtered_streams`, `filter` (a string or `None`),
`max_id`, the `no_streams` / `no_stream_shown` flags, the snapshot
currently held by the shelve store under key `streams`
(`store_streams`), and `default_res`. -/
structure StreamListState where
  streams : List StreamRec
  filtered_streams : List StreamRec
  filter : Option (List Char)
  max_id : Int
  no_streams : Bool
  no_stream_shown : Bool
  store_streams : List StreamRec
  default_res : ResPolicy

namespace StreamList

/-- `StreamList.find_stream(sel, key)` (main.py lines 625-629): first
record whose `key` field equals `sel`, else `None`. -/
def find_stream {β : Type} [DecidableEq β]
    (streams : List StreamRec) (key : StreamRec → β) (sel : β) : Option StreamRec :=
  streams.find? (fun s => decide (key s = sel))

/-- `StreamList.sync_store` (main.py lines 611-613): writes the in-memory
list to the store. -/
def sync_store (st : StreamListState) : StreamListState :=
  { st with store_streams := st.streams }

/-- `StreamList.bump_stream(stream, throttle)` (main.py lines 615-623),
restricted to the record it mutates: with `throttle` and a previous
`last_seen` less than 60 seconds before `t = int(time())`, the record is
returned unchanged; otherwise `seen` is incremented and `last_seen` set
to `t`. -/
def bump_stream (t : Int) (throttle : Bool) (s : StreamRec) : StreamRec :=
  if throttle && decide (t - s.last_seen < 60) then s
  else { s with seen := s.seen + 1, last_seen := t }

/-- `StreamList.clear_filter` (main.py lines 631-639): sets the stored
filter to Python `None` and executes `self.filtered_streams = self.streams`,
which makes `filtered_streams` an ALIAS of the `streams` list object, not a
copy. The returned state holds the shared list's value in both fields,
which is exact for the state at return; but composing `clear_filter` with
a later mutating operation must use the alias-aware variant of that
operation (`add_stream_aliased` below), because in the program a later
mutation of `streams` is visible through `filtered_streams` and vice
versa. Display calls are omitted. -/
def clear_filter (st : StreamListState) : StreamListState :=
  { st with
    filter := none
    filtered_streams := st.streams
    no_stream_shown := st.no_streams }

/-- Stable insertion used to model Python's stable `list.sort` with
`key=seen, reverse=True`: `x` is placed before the first element whose
`seen` is `≤ x.seen`, hence after every earlier element with a strictly
greater `seen` and before every tie. -/
def insert_by_seen (x : StreamRec) : List StreamRec → List StreamRec
  | [] => [x]
  | y :: ys => if y.seen ≤ x.seen then x :: y :: ys else y :: insert_by_seen x ys

/-- Stable sort by `seen` descending, modelling
`self.filtered_streams.sort(key=lambda s:s['seen'], reverse=True)`
(main.py line 647): CPython's sort is stable, so its output is the
unique `seen`-descending reordering keeping ties in list order, which
this insertion sort computes. -/
def sort_by_seen : List StreamRec → List StreamRec
  | [] => []
  | x :: xs => insert_by_seen x (sort_by_seen xs)

/-- `StreamList.filter_streams` (main.py lines 641-653) with the text
typed at the prompt as `input`: stores the lowered text as the new
filter, rebuilds `filtered_streams` as the matching subsequence of
`streams` sorted by `seen` descending (stable), and recomputes
`no_stream_shown`. Display calls are omitted. -/
def filter_streams (st : StreamListState) (input : List Char) : StreamListState :=
  let f := lowerStr input
  let matched := st.streams.filter
    (fun s => py_contains f (lowerStr s.name) || py_contains f (lowerStr s.url))
  let sorted := sort_by_seen matched
  { st with
    filter := some f
    filtered_streams := sorted
    no_stream_shown := decide (sorted.length = 0) }

/-- `StreamList.add_stream(name, url, res, bump)` (main.py lines 655-702)
with `t = int(time())`. Returns the state at the end of the call together
with the exception that escaped it, if any. Mirrors the source order:
duplicate-url detection first (optionally bumping the existing record);
otherwise the id assignment (note: `id = 1` without touching `max_id`
when `streams` is empty), resolution dispatch, append to `streams`,
clearing of `no_streams`, then the filter-membership test (which raises
`TypeError` when `filter` is `None`, before `sync_store` runs), the
conditional append to `filtered_streams`, `no_stream_shown`, and
`sync_store`. The `init_streams_pad` call is display-only and omitted. -/
def add_stream (st : StreamListState) (t : Int) (name url : List Char)
    (res : Option ResPolicy) (bump : Bool) : StreamListState × Option PyExc :=
  match find_stream st.streams (fun s => s.url) url with
  | some ex =>
    if bump then
      let ex2 := bump_stream t false ex
      let streams2 := replaceFirst st.streams ex ex2
      ({ st with
          streams := streams2
          filtered_streams := replaceFirst st.filtered_streams ex ex2
          store_streams := streams2 }, none)
    else (st, none)
  | none =>
    let seen : Int := if bump then 1 else 0
    let last_seen : Int := if bump then t else 0
    let id : Int := if st.streams.length = 0 then 1 else st.max_id + 1
    let max_id2 : Int := if st.streams.length = 0 then st.max_id else st.max_id + 1
    let s_res := res.getD st.default_res
    let new_stream : StreamRec :=
      ⟨id, name, url, resolve_res s_res url, seen, last_seen⟩
    let streams2 := st.streams ++ [new_stream]
    let st1 := { st with streams := streams2, max_id := max_id2, no_streams := false }
    match py_in st.filter (lowerStr name) with
    | Except.error e => (st1, some e)
    | Except.ok b1 =>
      match (if b1 then Except.ok true else py_in st.filter (lowerStr url)) with
      | Except.error e => (st1, some e)
      | Except.ok b2 =>
        let filtered2 :=
          if b2 then st.filtered_streams ++ [new_stream] else st.filtered_streams
        let st2 := { st1 with
          filtered_streams := filtered2
          no_stream_shown := decide (filtered2.length = 0) }
        (sync_store st2, none)

/-- `StreamList.add_stream` (main.py lines 655-702) as executed while
`filtered_streams` is the SAME list object as `streams` — the alias set up
by `clear_filter` (line 633). Every mutation of either list is a mutation
of the one shared list, so both fields of each intermediate state hold the
shared list: the `streams.append` of line 695 is visible through the
filtered view immediately — in particular at the moment the line-697
filter test raises `TypeError` — and the conditional
`filtered_streams.append` of line 698, were it reached with a true test,
would append the record a second time to the shared list. Everything else
is as in `add_stream`. -/
def add_stream_aliased (st : StreamListState) (t : Int) (name url : List Char)
    (res : Option ResPolicy) (bump : Bool) : StreamListState × Option PyExc :=
  match find_stream st.streams (fun s => s.url) url with
  | some ex =>
    if bump then
      let ex2 := bump_stream t false ex
      let shared2 := replaceFirst st.streams ex ex2
      ({ st with
          streams := shared2
          filtered_streams := shared2
          store_streams := shared2 }, none)
    else (st, none)
  | none =>
    let seen : Int := if bump then 1 else 0
    let last_seen : Int := if bump then t else 0
    let id : Int := if st.streams.length = 0 then 1 else st.max_id + 1
    let max_id2 : Int := if st.streams.length = 0 then st.max_id else st.max_id + 1
    let s_res := res.getD st.default_res
    let new_stream : StreamRec :=
      ⟨id, name, url, resolve_res s_res url, seen, last_seen⟩
    let shared2 := st.streams ++ [new_stream]
    let st1 := { st with
      streams := shared2
      filtered_streams := shared2
      max_id := max_id2
      no_streams := false }
    match py_in st.filter (lowerStr name) with
    | Except.error e => (st1, some e)
    | Except.ok b1 =>
      match (if b1 then Except.ok true else py_in st.filter (lowerStr url)) with
      | Except.error e => (st1, some e)
      | Except.ok b2 =>
        let shared3 := if b2 then shared2 ++ [new_stream] else shared2
        let st2 := { st1 with
          streams := shared3
          filtered_streams := shared3
          no_stream_shown := decide (shared3.length = 0) }
        (sync_store st2, none)

/-- `StreamList.edit_stream(attr)` field selector. -/
inductive EditField where
  | name
  | url
  | res
  deriving DecidableEq

/-- Writing one field of a stream dict in place. -/
def set_field (s : StreamRec) (a : EditField) (v : List Char) : StreamRec :=
  match a with
  | EditField.name => { s with name := v }
  | EditField.url => { s with url := v }
  | EditField.res => { s with res := v }

/-- `StreamList.edit_stream(attr)` (main.py lines 737-752) with the
cursor row and the prompted value as parameters: no-op when
`no_streams`; `IndexError` when the cursor row is outside
`filtered_streams`; no-op when the prompted value is empty; otherwise
the selected dict is mutated in place, which updates it in both views.
No `sync_store` call appears in the source. Display calls omitted. -/
def edit_stream (st : StreamListState) (row : Nat) (a : EditField)
    (new_val : List Char) : StreamListState × Option PyExc :=
  if st.no_streams then (st, none)
  else
    match st.filtered_streams.get? row with
    | none => (st, some PyExc.indexError)
    | some s =>
      if new_val = [] then (st, none)
      else
        ({ st with
            filtered_streams := st.filtered_streams.set row (set_field s a new_val)
            streams := replaceFirst st.streams s (set_field s a new_val) }, none)

/-- `StreamList.delete_stream` (main.py lines 704-723) with the record
under the cursor and the confirmation answer as parameters: returns
unchanged when `no_streams` or when confirmation is declined; otherwise
`list.remove` runs on `filtered_streams` then on `streams` (each raising
`ValueError` when the record is absent), `sync_store` persists, and the
`no_streams` / `no_stream_shown` flags are switched on when the
respective list became empty. The cursor/pad manipulation is
display-level and omitted. -/
def delete_stream (st : StreamListState) (confirm : Bool) (s : StreamRec) :
    StreamListState × Option PyExc :=
  if st.no_streams then (st, none)
  else if !confirm then (st, none)
  else
    match py_remove st.filtered_streams s with
    | Except.error e => (st, some e)
    | Except.ok filtered2 =>
      match py_remove st.streams s with
      | Except.error e => ({ st with filtered_streams := filtered2 }, some e)
      | Except.ok streams2 =>
        ({ st with
            filtered_streams := filtered2
            streams := streams2
            store_streams := streams2
            no_streams := if streams2.length = 0 then true else st.no_streams
            no_stream_shown :=
              if filtered2.length = 0 then true else st.no_stream_shown }, none)

end StreamList

namespace ProcessList

/-- Result of `ProcessList.put` (main.py lines 82-97): the table after
the call, the exception that escaped (if any), and whether a child
process was spawned. -/
structure PutOutcome where
  q : List (Int × Nat)
  err : Option PyExc
  spawned : Bool
  deriving DecidableEq

/-- `ProcessList.put(id, *args)` (main.py lines 82-97). The table is a
dict `id -> process handle`; `spawn` is the outcome of the
`self.call(*args)` `Popen` invocation (`OSError` when the binary is
missing). Capacity is checked first: at `max_size` the call raises
`QueueFull` before looking at `id`; below capacity a live `id` raises
`QueueDuplicate` before spawning; otherwise the process is spawned and
inserted. Every raise happens before the table is touched. -/
def put (q : List (Int × Nat)) (max_size : Nat) (id : Int)
    (spawn : Except PyExc Nat) : PutOutcome :=
  if q.length < max_size then
    if (q.lookup id).isSome then ⟨q, some PyExc.queueDuplicate, false⟩
    else
      match spawn with
      | Except.error e => ⟨q, some e, false⟩
      | Except.ok p => ⟨q ++ [(id, p)], none, true⟩
  else ⟨q, some PyExc.queueFull, false⟩

end ProcessList

/-- Outcome of `StreamList.play_stream` (main.py lines 772-788):
either the guard no-op, a successful launch (with the new table and the
bumped record), an exception converted to a footer message, or an
exception re-raised past the handler (which `run()` does not catch). -/
inductive PlayOutcome where
  | noop
  | played (q : List (Int × Nat)) (s : StreamRec)
  | footer (msg : List Char)
  | uncaught (e : PyExc)
  deriving DecidableEq

namespace StreamList

/-- `StreamList.play_stream` (main.py lines 772-788) with the selected
record, the spawn outcome and `t = int(time())` as parameters. The
`except` clause converts exactly `QueueDuplicate` and `OSError` into
footer messages; every other exception — in particular `QueueFull` —
hits `else: raise e` and escapes the handler (and `run()` has no
handler around the dispatch). -/
def play_stream (no_stream_shown : Bool) (q : List (Int × Nat)) (max_size : Nat)
    (s : StreamRec) (spawn : Except PyExc Nat) (t : Int) : PlayOutcome :=
  if no_stream_shown then PlayOutcome.noop
  else
    let out := ProcessList.put q max_size s.id spawn
    match out.err with
    | none => PlayOutcome.played out.q (bump_stream t true s)
    | some PyExc.queueDuplicate =>
      PlayOutcome.footer (("This stream is already playing").toList)
    | some PyExc.osError => PlayOutcome.footer (("Faulty command line").toList)
    | some e => PlayOutcome.uncaught e

/-- The two pads of the interface. -/
inductive PadName where
  | streams
  | help
  deriving DecidableEq

/-- `StreamList.move(direction, absolute, pad_name)` (main.py lines
456-520), restricted to its state effect on `(row, offset)`:
`pad_max_y` is `pad.getmaxyx()[0]` (which `init_streams_pad` sets to
`max 1 N` for the streams pad), `pad_h` is `self.pad_h`, `n` is
`len(self.filtered_streams)`. The streams pad moves line-wise with the
cursor kept inside the viewport; the help pad scrolls page-wise and
ignores the cursor row. -/
def move (pad : PadName) (no_streams : Bool) (pad_max_y pad_h n : Int)
    (absolute : Bool) (direction : Int) (row offset : Int) : Int × Int :=
  if pad = PadName.streams ∧ no_streams then (row, offset)
  else if pad = PadName.help then
    if absolute then
      if direction > 0 then (row, pad_max_y - pad_h + 1) else (row, 0)
    else
      if direction > 0 then (row, min (pad_max_y - pad_h + 1) (offset + pad_h))
      else if offset > 0 then (row, max 0 (offset - pad_h))
      else (row, offset)
  else
    if absolute ∧ 0 ≤ direction ∧ direction < pad_max_y then
      let new_offset :=
        if direction < offset then direction
        else if direction > offset + pad_h - 2 then direction - pad_h + 2
        else offset
      (direction, new_offset)
    else
      if direction = -1 ∧ row > 0 then
        (row - 1, if row = offset then offset - 1 else offset)
      else if direction = 1 ∧ row < n - 1 then
        (row + 1, if row = offset + pad_h - 2 then offset + 1 else offset)
      else (row, offset)

/-- `k` successive `move(1)` relative down-moves on the streams pad. -/
def down_iter (pad_h n : Int) : Nat → Int × Int → Int × Int
  | 0, st => st
  | k + 1, st =>
    let st2 := down_iter pad_h n k st
    move PadName.streams false (max 1 n) pad_h n false 1 st2.1 st2.2

/-- The keys dispatched by `run()` (main.py lines 282-334). `other`
stands for any key with no handler. -/
inductive Key where
  | up
  | down
  | filterKey
  | clearFilterKey
  | g
  | bigG
  | quitKey
  | esc
  | enter
  | stopKey
  | resetKey
  | editNameKey
  | editResKey
  | editUrlKey
  | showCmdKey
  | cycleCmdKey
  | addKey
  | deleteKey
  | helpKey
  | other
  deriving DecidableEq

/-- How one keystroke updates `self.got_g`, together with whether the
`move(0, absolute=True)` jump fires (main.py lines 294-299): the
`ord('g')` branch is the only place in `run()` that reads or writes
`self.got_g`; every other key handler leaves it untouched and never
jumps. Returns `(new got_g, jumped)`. -/
def got_g_step (got_g : Bool) (c : Key) : Bool × Bool :=
  match c with
  | Key.g => if got_g then (false, true) else (true, false)
  | _ => (got_g, false)

end StreamList

/-! Helper lemmas about the stable sort used by `filter_streams`. -/

theorem py_contains_nil (s : List Char) : py_contains [] s = true := by
  cases s <;> simp [py_contains, py_starts]

theorem insert_by_seen_perm (x : StreamRec) (l : List StreamRec) :
    (StreamList.insert_by_seen x l).Perm (x :: l) := by
  induction l with
  | nil => simp [StreamList.insert_by_seen]
  | cons y ys ih =>
    simp only [StreamList.insert_by_seen]
    split
    · exact List.Perm.refl _
    · exact (ih.cons y).trans (List.Perm.swap x y ys)

theorem sort_by_seen_perm (l : List StreamRec) : (StreamList.sort_by_seen l).Perm l := by
  induction l with
  | nil => simp [StreamList.sort_by_seen]
  | cons x xs ih =>
    exact (insert_by_seen_perm x (StreamList.sort_by_seen xs)).trans (ih.cons x)

theorem insert_by_seen_pairwise (x : StreamRec) (l : List StreamRec)
    (h : l.Pairwise (fun a b => b.seen ≤ a.seen)) :
    (StreamList.insert_by_seen x l).Pairwise (fun a b => b.seen ≤ a.seen) := by
  induction l with
  | nil => simp [StreamList.insert_by_seen]
  | cons y ys ih =>
    rw [List.pairwise_cons] at h
    obtain ⟨hy, hys⟩ := h
    simp only [StreamList.insert_by_seen]
    split
    · rename_i hle
      refine List.pairwise_cons.mpr ⟨?_, List.pairwise_cons.mpr ⟨hy, hys⟩⟩
      intro b hb
      rcases List.mem_cons.mp hb with rfl | hb2
      · exact hle
      · exact le_trans (hy b hb2) hle
    · rename_i hgt
      refine List.pairwise_cons.mpr ⟨?_, ih hys⟩
      intro b hb
      rcases List.mem_cons.mp ((insert_by_seen_perm x ys).mem_iff.mp hb) with rfl | hb2
      · omega
      · exact hy b hb2

theorem sort_by_seen_pairwise (l : List StreamRec) :
    (StreamList.sort_by_seen l).Pairwise (fun a b => b.seen ≤ a.seen) := by
  induction l with
  | nil => simp [StreamList.sort_by_seen]
  | cons x xs ih => exact insert_by_seen_pairwise x _ ih

theorem filter_insert_by_seen (k : Int) (x : StreamRec) (l : List StreamRec) :
    (StreamList.insert_by_seen x l).filter (fun s => decide (s.seen = k)) =
      if x.seen = k then x :: l.filter (fun s => decide (s.seen = k))
      else l.filter (fun s => decide (s.seen = k)) := by
  induction l with
  | nil =>
    by_cases hx : x.seen = k <;>
      simp [StreamList.insert_by_seen, List.filter_cons, hx]
  | cons y ys ih =>
    simp only [StreamList.insert_by_seen]
    by_cases hle : y.seen ≤ x.seen
    · rw [if_pos hle]
      by_cases hx : x.seen = k <;> simp [List.filter_cons, hx]
    · rw [if_neg hle]
      by_cases hx : x.seen = k
      · have hy : ¬(y.seen = k) := by omega
        simp [List.filter_cons, hy, ih, hx]
      · by_cases hy : y.seen = k <;> simp [List.filter_cons, hy, ih, hx]

theorem sort_by_seen_stable (k : Int) (l : List StreamRec) :
    (StreamList.sort_by_seen l).filter (fun s => decide (s.seen = k))
      = l.filter (fun s => decide (s.seen = k)) := by
  induction l with
  | nil => rfl
  | cons x xs ih =>
    simp only [StreamList.sort_by_seen, filter_insert_by_seen, ih, List.filter_cons]
    by_cases hx : x.seen = k <;> simp [hx]

open StreamList

/-! Helper lemmas about `move` on the streams pad. -/

theorem move_streams_rel (ph n d row offset : Int) :
    move PadName.streams false (max 1 n) ph n false d row offset =
      if d = -1 ∧ row > 0 then (row - 1, if row = offset then offset - 1 else offset)
      else if d = 1 ∧ row < n - 1 then
        (row + 1, if row = offset + ph - 2 then offset + 1 else offset)
      else (row, offset) := by
  simp [move]

theorem move_streams_abs (ph n d row offset : Int) (hd0 : 0 ≤ d) (hd1 : d < max 1 n) :
    move PadName.streams false (max 1 n) ph n true d row offset =
      (d, if d < offset then d
          else if d > offset + ph - 2 then d - ph + 2 else offset) := by
  simp [move, hd0, hd1]

theorem down_iter_row (ph n : Int) (hn : 1 ≤ n) (k : Nat) :
    (down_iter ph n k (0, 0)).1 = min (k : Int) (n - 1) := by
  induction k with
  | zero =>
    simp only [down_iter]
    omega
  | succ k ih =>
    simp only [down_iter, move_streams_rel]
    rw [ih]
    norm_num
    split_ifs <;> simp <;> omega

/-- Claim C8: in the stream-list pane with `N = |filtered_streams| > 0` and a
well-formed viewport (`page_height = pad_h ≥ 2`, cursor inside the list and
inside `[offset, offset + pad_h - 2]`, offset nonnegative), a relative move
shifts the cursor by exactly ±1 clamped to `[0, N-1]` (down from the last row
and up from row 0 are no-ops), the scroll offset changes by at most one line
per relative move and keeps the cursor inside `[offset, offset + pad_h - 2]`,
moving down `N-1` times from `(row, offset) = (0, 0)` lands on the last row
and a further down-move is a no-op, and an absolute jump to row 0 always
results in scroll offset 0. -/
theorem C8_navigation (sz : Nat) (ph row offset : Int)
    (hn : 1 ≤ sz) (hph : 2 ≤ ph) (h0 : 0 ≤ offset) (h1 : offset ≤ row)
    (h2 : row ≤ offset + ph - 2) (h3 : row ≤ (sz : Int) - 1) :
    (move PadName.streams false (max 1 (sz : Int)) ph (sz : Int) false 1 row offset
      = (if row < (sz : Int) - 1 then row + 1 else row,
         if row < (sz : Int) - 1 ∧ row = offset + ph - 2 then offset + 1 else offset))
    ∧ (0 ≤ (move PadName.streams false (max 1 (sz : Int)) ph (sz : Int) false 1 row offset).1
      ∧ (move PadName.streams false (max 1 (sz : Int)) ph (sz : Int) false 1 row offset).1
          ≤ (sz : Int) - 1
      ∧ 0 ≤ (move PadName.streams false (max 1 (sz : Int)) ph (sz : Int) false 1 row offset).2
      ∧ (move PadName.streams false (max 1 (sz : Int)) ph (sz : Int) false 1 row offset).2
          ≤ (move PadName.streams false (max 1 (sz : Int)) ph (sz : Int) false 1 row offset).1
      ∧ (move PadName.streams false (max 1 (sz : Int)) ph (sz : Int) false 1 row offset).1
          ≤ (move PadName.streams false (max 1 (sz : Int)) ph (sz : Int) false 1 row offset).2
            + ph - 2
      ∧ (move PadName.streams false (max 1 (sz : Int)) ph (sz : Int) false 1 row offset).2
          - offset ≤ 1
      ∧ offset
          - (move PadName.streams false (max 1 (sz : Int)) ph (sz : Int) false 1 row offset).2
          ≤ 1)
    ∧ (move PadName.streams false (max 1 (sz : Int)) ph (sz : Int) false (-1) row offset
      = (if 0 < row then row - 1 else row,
         if 0 < row ∧ row = offset then offset - 1 else offset))
    ∧ (0 ≤ (move PadName.streams false (max 1 (sz : Int)) ph (sz : Int) false (-1) row offset).1
      ∧ (move PadName.streams false (max 1 (sz : Int)) ph (sz : Int) false (-1) row offset).1
          ≤ (sz : Int) - 1
      ∧ 0 ≤ (move PadName.streams false (max 1 (sz : Int)) ph (sz : Int) false (-1) row offset).2
      ∧ (move PadName.streams false (max 1 (sz : Int)) ph (sz : Int) false (-1) row offset).2
          ≤ (move PadName.streams false (max 1 (sz : Int)) ph (sz : Int) false (-1) row offset).1
      ∧ (move PadName.streams false (max 1 (sz : Int)) ph (sz : Int) false (-1) row offset).1
          ≤ (move PadName.streams false (max 1 (sz : Int)) ph (sz : Int) false (-1) row offset).2
            + ph - 2
      ∧ (move PadName.streams false (max 1 (sz : Int)) ph (sz : Int) false (-1) row offset).2
          - offset ≤ 1
      ∧ offset
          - (move PadName.streams false (max 1 (sz : Int)) ph (sz : Int) false (-1) row offset).2
          ≤ 1)
    ∧ ((down_iter ph (sz : Int) (sz - 1) (0, 0)).1 = (sz : Int) - 1
      ∧ move PadName.streams false (max 1 (sz : Int)) ph (sz : Int) false 1
          (down_iter ph (sz : Int) (sz - 1) (0, 0)).1
          (down_iter ph (sz : Int) (sz - 1) (0, 0)).2
        = down_iter ph (sz : Int) (sz - 1) (0, 0))
    ∧ (move PadName.streams false (max 1 (sz : Int)) ph (sz : Int) true 0 row offset).2 = 0 := by
  have hb : (down_iter ph (sz : Int) (sz - 1) (0, 0)).1 = (sz : Int) - 1 := by
    rw [down_iter_row ph (sz : Int) (by exact_mod_cast hn) (sz - 1)]
    omega
  have hnoop : move PadName.streams false (max 1 (sz : Int)) ph (sz : Int) false 1
      (down_iter ph (sz : Int) (sz - 1) (0, 0)).1
      (down_iter ph (sz : Int) (sz - 1) (0, 0)).2
      = down_iter ph (sz : Int) (sz - 1) (0, 0) := by
    rw [move_streams_rel]
    rw [if_neg (by norm_num), if_neg (by rw [not_and]; intro h; rw [hb]; omega)]
  have habs : (move PadName.streams false (max 1 (sz : Int)) ph (sz : Int) true 0 row offset).2
      = 0 := by
    rw [move_streams_abs ph (sz : Int) 0 row offset le_rfl (by omega)]
    simp only []
    split_ifs <;> omega
  refine ⟨?_, ⟨?_, ?_, ?_, ?_, ?_, ?_, ?_⟩, ?_, ⟨?_, ?_, ?_, ?_, ?_, ?_, ?_⟩,
    ⟨hb, hnoop⟩, habs⟩ <;>
    rw [move_streams_rel] <;> norm_num <;> split_ifs <;> simp <;> omega

/-- Witness for C8 at `N = 3`, `pad_h = 4`, `(row, offset) = (1, 0)`: the
hypotheses hold and (extracting the final conjunct) the absolute jump to
row 0 yields offset 0. -/
theorem C8_navigation_witness :
    ((1 : Nat) ≤ 3 ∧ (2 : Int) ≤ 4 ∧ (0 : Int) ≤ 0 ∧ (0 : Int) ≤ 1
      ∧ (1 : Int) ≤ 0 + 4 - 2 ∧ (1 : Int) ≤ ((3 : Nat) : Int) - 1)
    ∧ (move PadName.streams false (max 1 ((3 : Nat) : Int)) 4 ((3 : Nat) : Int)
        true 0 1 0).2 = 0 :=
  ⟨by decide,
    (C8_navigation 3 4 1 0 (by decide) (by decide) (by decide) (by decide)
      (by decide) (by decide)).2.2.2.2.2⟩

/-- Claim C7: setting a non-empty filter and then setting the empty filter
(`filter_streams` run with empty input, the code's realization of
`set_filter("")`, which matches every record) restores `filtered_streams`
to the full stream list in canonical sorted order: every record of
`streams` is present (a permutation), the result is ordered by `seen`
descending, and ties are broken by insertion order — for every seen-count
`k`, the records with that count appear in exactly their `streams`
order (stable sort). -/
theorem C7_filter_roundtrip (st : StreamListState) (text : List Char) (k : Int)
    (h : text ≠ []) :
    ((filter_streams (filter_streams st text) []).filtered_streams).Perm st.streams
    ∧ ((filter_streams (filter_streams st text) []).filtered_streams).Pairwise
        (fun a b => b.seen ≤ a.seen)
    ∧ ((filter_streams (filter_streams st text) []).filtered_streams).filter
        (fun s => decide (s.seen = k))
      = st.streams.filter (fun s => decide (s.seen = k)) := by
  have hfull : (filter_streams (filter_streams st text) []).filtered_streams
      = sort_by_seen st.streams := by
    simp [filter_streams, lowerStr, py_contains_nil]
  rw [hfull]
  exact ⟨sort_by_seen_perm st.streams, sort_by_seen_pairwise st.streams,
    sort_by_seen_stable k st.streams⟩

/-- Witness for C7 at a two-record registry (seen counts 3 and 5) with
filter text "a" then "": extracting the permutation conjunct. -/
theorem C7_filter_roundtrip_witness :
    (['a'] : List Char) ≠ []
    ∧ ((filter_streams (filter_streams
        ⟨[⟨1, ['a'], ['u'], ['r'], 3, 0⟩, ⟨2, ['b'], ['v'], ['r'], 5, 0⟩],
          [⟨1, ['a'], ['u'], ['r'], 3, 0⟩, ⟨2, ['b'], ['v'], ['r'], 5, 0⟩],
          some [], 2, false, false,
          [⟨1, ['a'], ['u'], ['r'], 3, 0⟩, ⟨2, ['b'], ['v'], ['r'], 5, 0⟩],
          ResPolicy.str DEFAULT_RESOLUTION_HARD⟩
        ['a']) []).filtered_streams).Perm
      [⟨1, ['a'], ['u'], ['r'], 3, 0⟩, ⟨2, ['b'], ['v'], ['r'], 5, 0⟩] :=
  ⟨by decide,
    (C7_filter_roundtrip
      ⟨[⟨1, ['a'], ['u'], ['r'], 3, 0⟩, ⟨2, ['b'], ['v'], ['r'], 5, 0⟩],
        [⟨1, ['a'], ['u'], ['r'], 3, 0⟩, ⟨2, ['b'], ['v'], ['r'], 5, 0⟩],
        some [], 2, false, false,
        [⟨1, ['a'], ['u'], ['r'], 3, 0⟩, ⟨2, ['b'], ['v'], ['r'], 5, 0⟩],
        ResPolicy.str DEFAULT_RESOLUTION_HARD⟩
      ['a'] 5 (by decide)).1⟩

/-- Claim C1 (code bug in `add_stream`): ids are neither unique nor
monotonic. From a fresh registry, adding two streams with distinct urls
assigns id 1 to both — the `len(self.streams) == 0` branch assigns
`id = 1` without updating `self.max_id`, so the second add computes
`max_id + 1 = 1` again. Likewise, after deleting the only record the next
add reuses id 1. This contradicts the spec's monotonic-counter invariant
(and the evident intent of maintaining `max_id`). -/
theorem C1_id_reuse_bug :
    (((add_stream ((add_stream
          ⟨[], [], some [], 0, true, true, [], ResPolicy.str DEFAULT_RESOLUTION_HARD⟩
          0 ['a'] ['u', '1'] none false).1)
        0 ['b'] ['u', '2'] none false).1).streams.map (fun s => s.id) = [1, 1])
    ∧ (((add_stream ((delete_stream
          ⟨[⟨1, ['a'], ['u'], ['r'], 0, 0⟩], [⟨1, ['a'], ['u'], ['r'], 0, 0⟩],
            some [], 1, false, false, [⟨1, ['a'], ['u'], ['r'], 0, 0⟩],
            ResPolicy.str DEFAULT_RESOLUTION_HARD⟩
          true ⟨1, ['a'], ['u'], ['r'], 0, 0⟩).1)
        0 ['c'] ['u', '3'] none false).1).streams.map (fun s => s.id) = [1]) := by
  decide

/-- Claim C2 counterexample: with the Supervisor table holding
`max_size = 10` live entries, launching a new stream raises `QueueFull`,
and `play_stream`'s handler does NOT convert it to a footer message — the
`else: raise e` branch re-raises it past the command-dispatch boundary
(and `run()` has no handler), contradicting the claim that
`CapacityExceeded` is reported in the footer and is not fatal. -/
theorem C2_queuefull_uncaught :
    play_stream false
      [(1, 0), (2, 0), (3, 0), (4, 0), (5, 0), (6, 0), (7, 0), (8, 0), (9, 0), (10, 0)]
      10 ⟨11, ['s'], ['u'], ['r'], 0, 0⟩ (Except.ok 0) 0
      = PlayOutcome.uncaught PyExc.queueFull := by
  decide

/-- Claim C2 amended: when the Supervisor table is full, the `QueueFull`
raised by `put` escapes `play_stream`'s exception handler uncaught (it is
re-raised and propagates out of the event loop); only `QueueDuplicate`
and `OSError` are converted to footer/status-line messages at the
command-dispatch boundary. -/
theorem C2_error_conversion (q : List (Int × Nat)) (max_size : Nat) (s : StreamRec)
    (spawn : Except PyExc Nat) (t : Int) :
    (q.length = max_size →
      play_stream false q max_size s spawn t = PlayOutcome.uncaught PyExc.queueFull)
    ∧ (q.length < max_size → (q.lookup s.id).isSome = true →
      play_stream false q max_size s spawn t
        = PlayOutcome.footer (("This stream is already playing").toList))
    ∧ (q.length < max_size → (q.lookup s.id).isSome = false →
        spawn = Except.error PyExc.osError →
      play_stream false q max_size s spawn t
        = PlayOutcome.footer (("Faulty command line").toList)) := by
  refine ⟨fun h => ?_, fun h1 h2 => ?_, fun h1 h2 h3 => ?_⟩
  · simp [play_stream, ProcessList.put, show ¬(q.length < max_size) by omega]
  · simp [play_stream, ProcessList.put, h1, h2]
  · subst h3
    simp [play_stream, ProcessList.put, h1, h2]

/-- Witness for the amended C2 at a one-slot table. -/
theorem C2_error_conversion_witness :
    ([((5 : Int), (0 : Nat))].length = 1)
    ∧ play_stream false [(5, 0)] 1 ⟨7, ['s'], ['u'], ['r'], 0, 0⟩ (Except.ok 0) 0
        = PlayOutcome.uncaught PyExc.queueFull :=
  ⟨by decide,
    (C2_error_conversion [(5, 0)] 1 ⟨7, ['s'], ['u'], ['r'], 0, 0⟩
      (Except.ok 0) 0).1 (by decide)⟩

/-- Claim C3 counterexample: editing the selected record's name updates the
in-memory views but `edit_stream` never calls `sync_store`, so immediately
after the edit the stored snapshot still holds the pre-edit record and
differs from the in-memory stream list — contradicting the claim that the
registry is persisted after every edit. -/
theorem C3_edit_not_persisted :
    ((edit_stream
        ⟨[⟨1, ['a'], ['u'], ['r'], 0, 0⟩], [⟨1, ['a'], ['u'], ['r'], 0, 0⟩],
          some [], 1, false, false, [⟨1, ['a'], ['u'], ['r'], 0, 0⟩],
          ResPolicy.str DEFAULT_RESOLUTION_HARD⟩
        0 EditField.name ['x']).1.streams = [⟨1, ['x'], ['u'], ['r'], 0, 0⟩])
    ∧ ((edit_stream
        ⟨[⟨1, ['a'], ['u'], ['r'], 0, 0⟩], [⟨1, ['a'], ['u'], ['r'], 0, 0⟩],
          some [], 1, false, false, [⟨1, ['a'], ['u'], ['r'], 0, 0⟩],
          ResPolicy.str DEFAULT_RESOLUTION_HARD⟩
        0 EditField.name ['x']).2 = none)
    ∧ ((edit_stream
        ⟨[⟨1, ['a'], ['u'], ['r'], 0, 0⟩], [⟨1, ['a'], ['u'], ['r'], 0, 0⟩],
          some [], 1, false, false, [⟨1, ['a'], ['u'], ['r'], 0, 0⟩],
          ResPolicy.str DEFAULT_RESOLUTION_HARD⟩
        0 EditField.name ['x']).1.store_streams
      ≠ (edit_stream
        ⟨[⟨1, ['a'], ['u'], ['r'], 0, 0⟩], [⟨1, ['a'], ['u'], ['r'], 0, 0⟩],
          some [], 1, false, false, [⟨1, ['a'], ['u'], ['r'], 0, 0⟩],
          ResPolicy.str DEFAULT_RESOLUTION_HARD⟩
        0 EditField.name ['x']).1.streams) := by
  decide

/-- Claim C3 amended: `edit_stream` performs the in-place field update in
both in-memory views but does not persist: the stored snapshot is left
exactly as it was (stale until some later persisting mutation or program
exit). -/
theorem C3_edit_in_memory_only (st : StreamListState) (row : Nat) (a : EditField)
    (v : List Char) (s : StreamRec)
    (h1 : st.no_streams = false) (h2 : st.filtered_streams.get? row = some s)
    (h3 : v ≠ []) :
    (edit_stream st row a v).1.store_streams = st.store_streams
    ∧ (edit_stream st row a v).2 = none
    ∧ (edit_stream st row a v).1.filtered_streams
        = st.filtered_streams.set row (set_field s a v)
    ∧ (edit_stream st row a v).1.streams = replaceFirst st.streams s (set_field s a v) := by
  simp only [List.get?_eq_getElem?] at h2
  simp [edit_stream, h1, h2, h3]

/-- Witness for the amended C3 at a one-record registry. -/
theorem C3_edit_in_memory_only_witness :
    ((⟨[⟨1, ['a'], ['u'], ['r'], 0, 0⟩], [⟨1, ['a'], ['u'], ['r'], 0, 0⟩],
        some [], 1, false, false, [⟨1, ['a'], ['u'], ['r'], 0, 0⟩],
        ResPolicy.str DEFAULT_RESOLUTION_HARD⟩ : StreamListState).no_streams = false)
    ∧ (edit_stream
        ⟨[⟨1, ['a'], ['u'], ['r'], 0, 0⟩], [⟨1, ['a'], ['u'], ['r'], 0, 0⟩],
          some [], 1, false, false, [⟨1, ['a'], ['u'], ['r'], 0, 0⟩],
          ResPolicy.str DEFAULT_RESOLUTION_HARD⟩
        0 EditField.url ['w']).1.store_streams = [⟨1, ['a'], ['u'], ['r'], 0, 0⟩] :=
  ⟨by decide,
    (C3_edit_in_memory_only
      ⟨[⟨1, ['a'], ['u'], ['r'], 0, 0⟩], [⟨1, ['a'], ['u'], ['r'], 0, 0⟩],
        some [], 1, false, false, [⟨1, ['a'], ['u'], ['r'], 0, 0⟩],
        ResPolicy.str DEFAULT_RESOLUTION_HARD⟩
      0 EditField.url ['w'] ⟨1, ['a'], ['u'], ['r'], 0, 0⟩
      (by decide) (by decide) (by decide)).1⟩

/-- Claim C4 counterexample: with the table holding `max_size = 10` entries
one of which is id 3 (a live entry), `put(3, ...)` fails with `QueueFull`,
not `QueueDuplicate` — capacity is checked before the duplicate check, so
"fails with DuplicateLaunch whenever id already has a live entry" is false
when the table is simultaneously full. -/
theorem C4_full_beats_duplicate :
    ((ProcessList.put
      [(1, 0), (2, 0), (3, 0), (4, 0), (5, 0), (6, 0), (7, 0), (8, 0), (9, 0), (10, 0)]
      10 3 (Except.ok 0)).err = some PyExc.queueFull)
    ∧ ((([(1, 0), (2, 0), (3, 0), (4, 0), (5, 0), (6, 0), (7, 0), (8, 0), (9, 0),
        (10, 0)] : List (Int × Nat)).lookup 3).isSome = true) := by
  decide

/-- Claim C4 amended: `put` fails with `QueueFull` whenever the table holds
`max_size` entries (capacity is checked first, even when `id` is live),
fails with `QueueDuplicate` whenever `id` has a live entry and the table is
below capacity, and in every failure case the table is left unchanged and
no process is spawned. -/
theorem C4_put_spec (q : List (Int × Nat)) (max_size : Nat) (id : Int)
    (spawn : Except PyExc Nat) :
    (q.length = max_size →
      ProcessList.put q max_size id spawn = ⟨q, some PyExc.queueFull, false⟩)
    ∧ (q.length < max_size → (q.lookup id).isSome = true →
      ProcessList.put q max_size id spawn = ⟨q, some PyExc.queueDuplicate, false⟩)
    ∧ ((ProcessList.put q max_size id spawn).err.isSome = true →
      (ProcessList.put q max_size id spawn).q = q
        ∧ (ProcessList.put q max_size id spawn).spawned = false) := by
  refine ⟨fun h => ?_, fun h1 h2 => ?_, fun h => ?_⟩
  · simp [ProcessList.put, show ¬(q.length < max_size) by omega]
  · simp [ProcessList.put, h1, h2]
  · unfold ProcessList.put at h ⊢
    split_ifs at h ⊢ <;> cases spawn <;> simp_all

/-- Witness for the amended C4: a one-slot table with a live entry. -/
theorem C4_put_spec_witness :
    ([((5 : Int), (0 : Nat))].length = 1)
    ∧ ProcessList.put [(5, 0)] 1 9 (Except.ok 0)
        = ⟨[(5, 0)], some PyExc.queueFull, false⟩ :=
  ⟨by decide, (C4_put_spec [(5, 0)] 1 9 (Except.ok 0)).1 (by decide)⟩

/-- Claim C5: `bump_stream` with `throttle=true` is suppressed (record
unchanged) exactly when `t - last_seen < 60`; otherwise, and always with
`throttle=false`, it increments `seen` by one and sets `last_seen := t`.
Consequently two throttled bumps within 60 seconds increment `seen` only
once, while an unthrottled bump within the window still increments. -/
theorem C5_bump_throttle (s : StreamRec) (t t2 : Int)
    (h1 : 60 ≤ t - s.last_seen) (h2 : t2 - t < 60) :
    bump_stream t true s = { s with seen := s.seen + 1, last_seen := t }
    ∧ bump_stream t2 true (bump_stream t true s) = bump_stream t true s
    ∧ (bump_stream t2 true (bump_stream t true s)).seen = s.seen + 1
    ∧ bump_stream t false s = { s with seen := s.seen + 1, last_seen := t }
    ∧ bump_stream t2 false (bump_stream t true s)
        = { s with seen := s.seen + 1 + 1, last_seen := t2 } := by
  have hns : ¬(t - s.last_seen < 60) := by omega
  have ha : bump_stream t true s = { s with seen := s.seen + 1, last_seen := t } := by
    simp [bump_stream, hns]
  have hb : bump_stream t2 true (bump_stream t true s) = bump_stream t true s := by
    rw [ha]
    simp [bump_stream, h2]
  refine ⟨ha, hb, ?_, ?_, ?_⟩
  · rw [hb, ha]
  · simp [bump_stream]
  · rw [ha]
    simp [bump_stream]

/-- Witness for C5: a fresh record bumped at `t = 100` and again at
`t2 = 130` (within the 60-second window). -/
theorem C5_bump_throttle_witness :
    (60 ≤ (100 : Int) - (⟨1, ['a'], ['u'], ['r'], 0, 0⟩ : StreamRec).last_seen)
    ∧ ((130 : Int) - 100 < 60)
    ∧ (bump_stream 130 true (bump_stream 100 true ⟨1, ['a'], ['u'], ['r'], 0, 0⟩)).seen
        = (⟨1, ['a'], ['u'], ['r'], 0, 0⟩ : StreamRec).seen + 1 :=
  ⟨by decide, by decide,
    (C5_bump_throttle ⟨1, ['a'], ['u'], ['r'], 0, 0⟩ 100 130
      (by decide) (by decide)).2.2.1⟩

/-- Claim C6 counterexample: deleting a record that is not present in a
non-empty registry raises `ValueError` (from `list.remove`) instead of
being a silent no-op — `delete_stream` has no absent-record guard. -/
theorem C6_delete_absent_raises :
    (delete_stream
      ⟨[⟨1, ['a'], ['u'], ['r'], 0, 0⟩], [⟨1, ['a'], ['u'], ['r'], 0, 0⟩],
        some [], 1, false, false, [⟨1, ['a'], ['u'], ['r'], 0, 0⟩],
        ResPolicy.str DEFAULT_RESOLUTION_HARD⟩
      true ⟨2, ['b'], ['v'], ['r'], 0, 0⟩).2 = some PyExc.valueError := by
  decide

/-- Claim C6 amended: confirmed deletion of a record present in both views
removes it from both and persists the new list; deletion is a silent no-op
only when the registry is empty (the `no_streams` guard); but deleting a
record absent from `filtered_streams` in a non-empty registry raises
`ValueError` and leaves both views and the store unchanged. -/
theorem C6_delete_spec (st : StreamListState) (s : StreamRec) :
    (st.no_streams = true → delete_stream st true s = (st, none))
    ∧ (st.no_streams = false → s ∈ st.filtered_streams → s ∈ st.streams →
      (delete_stream st true s).2 = none
      ∧ (delete_stream st true s).1.filtered_streams = removeFirst st.filtered_streams s
      ∧ (delete_stream st true s).1.streams = removeFirst st.streams s
      ∧ (delete_stream st true s).1.store_streams = removeFirst st.streams s)
    ∧ (st.no_streams = false → s ∉ st.filtered_streams →
      (delete_stream st true s).2 = some PyExc.valueError
      ∧ (delete_stream st true s).1.filtered_streams = st.filtered_streams
      ∧ (delete_stream st true s).1.streams = st.streams
      ∧ (delete_stream st true s).1.store_streams = st.store_streams) := by
  refine ⟨fun h => ?_, fun h hf hs => ?_, fun h hf => ?_⟩
  · simp [delete_stream, h]
  · simp [delete_stream, py_remove, h, hf, hs]
  · simp [delete_stream, py_remove, h, hf]

/-- Witness for the amended C6: successful confirmed deletion of the only
record of a one-record registry. -/
theorem C6_delete_spec_witness :
    ((⟨[⟨1, ['a'], ['u'], ['r'], 0, 0⟩], [⟨1, ['a'], ['u'], ['r'], 0, 0⟩],
        some [], 1, false, false, [⟨1, ['a'], ['u'], ['r'], 0, 0⟩],
        ResPolicy.str DEFAULT_RESOLUTION_HARD⟩ : StreamListState).no_streams = false)
    ∧ (delete_stream
        ⟨[⟨1, ['a'], ['u'], ['r'], 0, 0⟩], [⟨1, ['a'], ['u'], ['r'], 0, 0⟩],
          some [], 1, false, false, [⟨1, ['a'], ['u'], ['r'], 0, 0⟩],
          ResPolicy.str DEFAULT_RESOLUTION_HARD⟩
        true ⟨1, ['a'], ['u'], ['r'], 0, 0⟩).2 = none :=
  ⟨by decide,
    ((C6_delete_spec
      ⟨[⟨1, ['a'], ['u'], ['r'], 0, 0⟩], [⟨1, ['a'], ['u'], ['r'], 0, 0⟩],
        some [], 1, false, false, [⟨1, ['a'], ['u'], ['r'], 0, 0⟩],
        ResPolicy.str DEFAULT_RESOLUTION_HARD⟩
      ⟨1, ['a'], ['u'], ['r'], 0, 0⟩).2.1 (by decide) (by decide) (by decide)).1⟩

/-- Claim C9 counterexample: after a first 'g' arms the pending flag, a
following 'j' (cursor down) neither jumps nor clears the flag — the flag
survives the keystroke that follows its arming, contradicting the claim
that any other key clears it. -/
theorem C9_flag_survives :
    ((got_g_step (got_g_step false Key.g).1 Key.down).1 = true)
    ∧ ((got_g_step (got_g_step false Key.g).1 Key.down).2 = false) := by
  decide

/-- Claim C9 amended: the first 'g' arms the flag; every key other than
'g' leaves the flag exactly as it is and never jumps (the dispatch in
`run()` never clears `got_g` on other keys), so the armed flag survives
any sequence of non-'g' keystrokes; the next 'g', whenever it comes,
consumes the flag and performs the jump to the top. -/
theorem C9_got_g_spec (ks : List Key) (a : Bool) (c : Key)
    (hks : ∀ x ∈ ks, x ≠ Key.g) (hc : c ≠ Key.g) :
    got_g_step false Key.g = (true, false)
    ∧ got_g_step a c = (a, false)
    ∧ List.foldl (fun b x => (got_g_step b x).1) true ks = true
    ∧ got_g_step (List.foldl (fun b x => (got_g_step b x).1) true ks) Key.g
        = (false, true) := by
  have hstep : ∀ (b : Bool) (x : Key), x ≠ Key.g → got_g_step b x = (b, false) := by
    intro b x hx
    cases x <;> first | rfl | exact absurd rfl hx
  have hfold : ∀ (l : List Key), (∀ x ∈ l, x ≠ Key.g) → ∀ b : Bool,
      List.foldl (fun b x => (got_g_step b x).1) b l = b := by
    intro l
    induction l with
    | nil => intro _ b; rfl
    | cons y ys ih =>
      intro hl b
      have hy : (got_g_step b y).1 = b := by
        rw [hstep b y (hl y (List.mem_cons_self y ys))]
      rw [List.foldl_cons, hy]
      exact ih (fun x hx => hl x (List.mem_cons_of_mem y hx)) b
  refine ⟨rfl, hstep a c hc, hfold ks hks true, ?_⟩
  rw [hfold ks hks true]
  rfl

/-- Witness for the amended C9: arming, surviving a down and an unbound
key, and consuming with the final 'g'. -/
theorem C9_got_g_spec_witness :
    ((∀ x ∈ ([Key.down, Key.other] : List Key), x ≠ Key.g) ∧ Key.up ≠ Key.g)
    ∧ (got_g_step false Key.g = (true, false)
      ∧ got_g_step true Key.up = (true, false)
      ∧ List.foldl (fun b x => (got_g_step b x).1) true [Key.down, Key.other] = true
      ∧ got_g_step
          (List.foldl (fun b x => (got_g_step b x).1) true [Key.down, Key.other]) Key.g
          = (false, true)) :=
  ⟨⟨by decide, by decide⟩,
    C9_got_g_spec [Key.down, Key.other] true Key.up (by decide) (by decide)⟩

/-- Claim C10 counterexample: after clear-filter, adding a stream with a
fresh url does raise `TypeError` at the filter-membership test — but the
new record nonetheless ends up in the filtered view at the moment the
exception escapes: `clear_filter` aliased `filtered_streams` to `streams`
(line 633), and the `streams.append` of line 695 runs before the test at
line 697, so the shared list already contains the record. This refutes
the claim's "instead of appending the new record to the filtered view". -/
theorem C10_record_reaches_filtered_view :
    ((add_stream_aliased (clear_filter
        ⟨[⟨1, ['a'], ['u'], ['r'], 0, 0⟩], [⟨1, ['a'], ['u'], ['r'], 0, 0⟩],
          some [], 1, false, false, [⟨1, ['a'], ['u'], ['r'], 0, 0⟩],
          ResPolicy.str DEFAULT_RESOLUTION_HARD⟩)
        0 ['z'] ['w'] none false).2 = some PyExc.typeError)
    ∧ ((⟨2, ['z'], ['w'], DEFAULT_RESOLUTION_HARD, 0, 0⟩ : StreamRec)
      ∈ (add_stream_aliased (clear_filter
        ⟨[⟨1, ['a'], ['u'], ['r'], 0, 0⟩], [⟨1, ['a'], ['u'], ['r'], 0, 0⟩],
          some [], 1, false, false, [⟨1, ['a'], ['u'], ['r'], 0, 0⟩],
          ResPolicy.str DEFAULT_RESOLUTION_HARD⟩)
        0 ['z'] ['w'] none false).1.filtered_streams) := by
  decide

/-- Claim C10 amended: after `clear_filter` the stored filter is Python
`None` (not the empty string), so any subsequent add of a stream whose
url is not already in the registry raises `TypeError` when evaluating
`self.filter in name.lower()`; the conditional filtered-view append of
line 698 and the `sync_store` of line 702 are never executed (the store
is unchanged) — but because `clear_filter` made `filtered_streams` an
alias of `streams`, the record appended to `streams` at line 695 is
already visible through the filtered view when the exception escapes:
the filtered view equals the shared list `streams ++ [new record]`. -/
theorem C10_typeerror_after_clear (st : StreamListState) (t : Int)
    (nm url : List Char) (res : Option ResPolicy)
    (h : find_stream st.streams (fun s => s.url) url = none) :
    (clear_filter st).filter = none
    ∧ (add_stream_aliased (clear_filter st) t nm url res false).2
        = some PyExc.typeError
    ∧ (add_stream_aliased (clear_filter st) t nm url res false).1.filtered_streams
        = st.streams
          ++ [⟨if st.streams.length = 0 then 1 else st.max_id + 1, nm, url,
              resolve_res (res.getD st.default_res) url, 0, 0⟩]
    ∧ (add_stream_aliased (clear_filter st) t nm url res false).1.filtered_streams
        = (add_stream_aliased (clear_filter st) t nm url res false).1.streams
    ∧ (add_stream_aliased (clear_filter st) t nm url res false).1.store_streams
        = st.store_streams := by
  refine ⟨rfl, ?_, ?_, ?_, ?_⟩ <;> simp [add_stream_aliased, clear_filter, py_in, h]

/-- Witness for the amended C10: a one-record registry, clearing the
filter, then adding a stream with a fresh url raises `TypeError` with the
store untouched. -/
theorem C10_typeerror_after_clear_witness :
    (find_stream
      (⟨[⟨1, ['a'], ['u'], ['r'], 0, 0⟩], [⟨1, ['a'], ['u'], ['r'], 0, 0⟩],
        some [], 1, false, false, [⟨1, ['a'], ['u'], ['r'], 0, 0⟩],
        ResPolicy.str DEFAULT_RESOLUTION_HARD⟩ : StreamListState).streams
      (fun s => s.url) ['w'] = none)
    ∧ (add_stream_aliased (clear_filter
        ⟨[⟨1, ['a'], ['u'], ['r'], 0, 0⟩], [⟨1, ['a'], ['u'], ['r'], 0, 0⟩],
          some [], 1, false, false, [⟨1, ['a'], ['u'], ['r'], 0, 0⟩],
          ResPolicy.str DEFAULT_RESOLUTION_HARD⟩)
        0 ['z'] ['w'] none false).2 = some PyExc.typeError :=
  ⟨by decide,
    (C10_typeerror_after_clear
      ⟨[⟨1, ['a'], ['u'], ['r'], 0, 0⟩], [⟨1, ['a'], ['u'], ['r'], 0, 0⟩],
        some [], 1, false, false, [⟨1, ['a'], ['u'], ['r'], 0, 0⟩],
        ResPolicy.str DEFAULT_RESOLUTION_HARD⟩
      0 ['z'] ['w'] none (by decide)).2.1⟩
